import Mathlib

/-!
Verification of the `surface-sampler` script (src/surface-sampler.py).

The script is a straight-line pipeline of external library calls with
literal parameters.  We embed it shallowly as:

* an event trace (`Event`, `pipelineEvents`): one event per library call,
  in program order, carrying the literal arguments the script passes
  (print statements, which are observability only, are not modelled);
* a symbolic data-flow expression (`SurfExpr`) for the pyvista/pyacvd
  half of the pipeline, recording how the finally written point set is
  produced from the re-imported mesh;
* Python numeric semantics: the CLI `distance` (a Python float) is
  modelled as a rational, `int()` as truncation toward zero (`pyInt`),
  and `range(a, b)` as `pythonRange`;
* Python `pathlib.Path(...).stem` as `pathStem` (POSIX rules: the last
  slash-separated component with empty and "." pieces dropped, minus the
  suffix that starts at the last dot when that dot is neither the first
  nor the last character of the name);
* the one failure point the claims mention, the `meshes[0]` index access
  on the result of `splitSurfaces`, as an `Except` value (`indexAccess`):
  the script has no try/except, so the error propagates to the result of
  the whole run.
-/

namespace SurfaceSampler

/-- Python `int()` applied to a (rational-modelled) float: truncation
toward zero, `int(3.5) = 3`, `int(-3.5) = -3`. -/
def pyInt (q : ℚ) : ℤ :=
  q.num.tdiv q.den

/-- Python `range(a, b)` as a list of integers `a, a+1, ..., b-1`. -/
def pythonRange (a b : ℤ) : List ℤ :=
  (List.range (b - a).toNat).map (fun (k : ℕ) => a + (k : ℤ))

/-- Splits a character list on a separator character, Python
`str.split(sep)` style (adjacent separators yield empty pieces). -/
def splitChars (c : Char) : List Char → List (List Char)
  | [] => [[]]
  | a :: rest =>
    match splitChars c rest with
    | [] => if a = c then [[], []] else [[a]]
    | h :: t => if a = c then [] :: h :: t else (a :: h) :: t

/-- Index of the last occurrence of a character, Python `str.rfind`
style (`none` when absent). -/
def lastIdxOf (c : Char) : List Char → Option ℕ
  | [] => none
  | a :: rest =>
    match lastIdxOf c rest with
    | some i => some (i + 1)
    | none => if a = c then some 0 else none

/-- Final path component of a POSIX path, Python `pathlib` rules:
slash-separated pieces with empty and "." pieces dropped, last piece
(or empty for paths with no such piece). -/
def pathNameChars (s : List Char) : List Char :=
  (((splitChars '/' s).filter
      (fun p => !(p == []) && !(p == ['.']))).getLast?).getD []

/-- Python `PurePath.stem` on the final component: the component minus
its suffix, where the suffix starts at the last dot if that dot is
neither at index 0 nor the last character. -/
def stemChars (name : List Char) : List Char :=
  match lastIdxOf '.' name with
  | some i => if 0 < i ∧ i + 1 < name.length then name.take i else name
  | none => name

/-- Python `Path(s).stem` for the paths this script handles. -/
def pathStem (s : String) : String :=
  (stemChars (pathNameChars s.toList)).asString

/-- The parsed command line (src/surface-sampler.py lines 13-20):
`molecule` is the PDB path, `distance` a float (modelled rational),
`points` an int. -/
structure Args where
  molecule : String
  distance : ℚ
  points : ℤ

/-- One sub-mesh as reported by pygamer `splitSurfaces`; the script only
ever inspects (prints) its volume, so the volume is all we keep. -/
structure MeshInfo where
  volume : ℚ
deriving DecidableEq

/-- The behaviour of the external libraries that the run depends on:
the list of connected components returned by `mesh.splitSurfaces()`
(line 37), in the order the library reports them. -/
structure Env where
  splitResult : List MeshInfo

/-- The one runtime failure the claims discuss: the `meshes[0]` index
access (line 41) on an empty component list. -/
inductive PyError where
  | indexError
deriving DecidableEq

/-- One library call of the script, in program order, with the literal
arguments the script passes at that call site. -/
inductive Event where
  | readPDBGauss (file : String)
  | computeOrientation
  | correctNormals
  | splitSurfaces
  | selectMesh (idx : ℕ)
  | selectAllVertices
  | smooth (maxIter : ℕ) (preserveRidges : Bool) (verbose : Bool)
  | coarseDense (rate : ℚ) (numiter : ℕ)
  | coarseFlat (rate : ℚ) (numiter : ℕ)
  | setFaceMarkers (marker : ℤ)
  | setRootMetadata (ishole : Bool) (marker : ℤ)
  | writeOBJ (file : String)
  | pvRead (file : String)
  | decimate (targetReduction : ℚ) (volumePreservation : Bool)
  | extractSurface
  | computeNormals
  | warpByNormals (scaleFactor : ℚ)
  | subdivide (nsub : ℕ)
  | cluster (nclus : ℤ)
  | createMesh
  | addMesh
  | addPoints
  | linkViews
  | showBounds
  | plotterShow
  | createPdbFromPoints (file : String)

/-- Symbolic data-flow expression for the pyvista/pyacvd half of the
pipeline (lines 74-107): which library outputs feed which inputs. -/
inductive SurfExpr where
  | pvRead (file : String)
  | decimate (targetReduction : ℚ) (volumePreservation : Bool) (src : SurfExpr)
  | extractSurface (src : SurfExpr)
  | computeNormals (src : SurfExpr)
  | warpByNormals (scaleFactor : ℚ) (src : SurfExpr)
  | clusteringMesh (src : SurfExpr) (nsub : ℕ) (nclus : ℤ)

/-- The scale factor passed to `vtkWarpVector.SetScaleFactor` (line 87):
the literal 2, whatever the requested distance. -/
def warpScaleFactor : ℚ := 2

/-- 3-D point/vector over the rationals, for the pointwise semantics of
the VTK warp filter. -/
structure Vec3 where
  x : ℚ
  y : ℚ
  z : ℚ

/-- Componentwise difference. -/
def Vec3.sub (v w : Vec3) : Vec3 :=
  ⟨v.x - w.x, v.y - w.y, v.z - w.z⟩

/-- Squared Euclidean norm. -/
def Vec3.normSq (v : Vec3) : ℚ :=
  v.x ^ 2 + v.y ^ 2 + v.z ^ 2

/-- Pointwise semantics of `vtkWarpVector` with the NORMALS array as
input vectors (lines 82-88): each point moves to
`point + scaleFactor • normal`. -/
def warpPoint (s : ℚ) (p n : Vec3) : Vec3 :=
  ⟨p.x + s * n.x, p.y + s * n.y, p.z + s * n.z⟩

/-- Name of the intermediate OBJ file, `f'{path.stem}.obj'` (line 70). -/
def objFileName (molecule : String) : String :=
  pathStem molecule ++ ".obj"

/-- Name of the final point-structure file,
`f'{path.stem}_swarms.pdb'` (line 107). -/
def swarmFileName (molecule : String) : String :=
  pathStem molecule ++ "_swarms.pdb"

/-- One iteration of the refinement loop body (lines 48-54):
`coarse_dense(rate=2, numiter=3)`, `coarse_flat(rate=0.1, numiter=3)`,
`smooth(max_iter=3, preserve_ridges=True, verbose=False)`. -/
def refinementIterationEvents : List Event :=
  [Event.coarseDense 2 3, Event.coarseFlat (1/10) 3,
   Event.smooth 3 true false]

/-- The whole refinement loop, `for i in range(5)` (line 48): five
repetitions of the body, no convergence test. -/
def refinementLoopEvents : List Event :=
  (List.range 5).flatMap (fun _ => refinementIterationEvents)

/-- The expansion loop, `for i in range(1, int(args.distance)+1)`
(lines 79-89): per iteration `compute_normals()` then the VTK warp with
scale factor 2. -/
def expansionLoopEvents (distance : ℚ) : List Event :=
  (pythonRange 1 (pyInt distance + 1)).flatMap
    (fun _ => [Event.computeNormals, Event.warpByNormals warpScaleFactor])

/-- Number of iterations the expansion loop body executes. -/
def expansionIterations (distance : ℚ) : ℕ :=
  (pythonRange 1 (pyInt distance + 1)).length

/-- Symbolic result of the expansion loop applied to a start surface:
each iteration replaces `shell` by the warp of its recomputed-normals
version (lines 81-89). -/
def expandSurf (distance : ℚ) (s : SurfExpr) : SurfExpr :=
  (pythonRange 1 (pyInt distance + 1)).foldl
    (fun acc _ => SurfExpr.warpByNormals warpScaleFactor
      (SurfExpr.computeNormals acc)) s

/-- `pv.read(obj_name).decimate(0.97, volume_preservation=True)
.extract_surface()` (lines 74-75). -/
def decimatedExpr (a : Args) : SurfExpr :=
  SurfExpr.extractSurface
    (SurfExpr.decimate (97/100) true (SurfExpr.pvRead (objFileName a.molecule)))

/-- `expanded_mesh = shell.extract_surface()` after the expansion loop
(line 91). -/
def expandedExpr (a : Args) : SurfExpr :=
  SurfExpr.extractSurface (expandSurf a.distance (decimatedExpr a))

/-- The mesh whose points are finally written (lines 92-95, 107):
`pyacvd.Clustering(expanded_mesh)`, `subdivide(3)`,
`cluster(args.points)`, `create_mesh().extract_surface()`; pyacvd's
`create_mesh` builds the mesh with one representative point per
cluster. -/
def writtenExpr (a : Args) : SurfExpr :=
  SurfExpr.extractSurface
    (SurfExpr.clusteringMesh (expandedExpr a) 3 a.points)

/-- Events of lines 28-75: meshing, orientation, component split and
selection, vertex selection, initial smoothing, the refinement loop,
marking, OBJ export, re-import and decimation. -/
def frontEvents (a : Args) : List Event :=
  [Event.readPDBGauss a.molecule, Event.computeOrientation,
   Event.correctNormals, Event.splitSurfaces, Event.selectMesh 0,
   Event.selectAllVertices, Event.smooth 5 false true]
  ++ refinementLoopEvents
  ++ [Event.setFaceMarkers 23, Event.setRootMetadata true (-1),
      Event.writeOBJ (objFileName a.molecule),
      Event.pvRead (objFileName a.molecule),
      Event.decimate (97/100) true, Event.extractSurface]

/-- Events of lines 91-104: surface extraction of the expanded shell,
subdivision, clustering, mesh creation, and the plotter calls up to but
not including `show()`. -/
def preShowEvents (a : Args) : List Event :=
  [Event.extractSurface, Event.subdivide 3, Event.cluster a.points,
   Event.createMesh, Event.extractSurface, Event.addMesh,
   Event.addPoints, Event.addMesh, Event.linkViews, Event.showBounds]

/-- The full event trace of one successful run, in program order
(lines 28-107). -/
def pipelineEvents (a : Args) : List Event :=
  frontEvents a ++ expansionLoopEvents a.distance ++ preShowEvents a
  ++ [Event.plotterShow,
      Event.createPdbFromPoints (swarmFileName a.molecule)]

/-- Python list indexing as a fallible operation: `xs[i]` raises
IndexError when out of range. -/
def indexAccess {α : Type} (xs : List α) (i : ℕ) : Except PyError α :=
  match xs.get? i with
  | some x => Except.ok x
  | none => Except.error PyError.indexError

/-- Outcome of a successful run: the selected component, the event
trace, and the symbolic expanded and written surfaces. -/
structure PipelineResult where
  selected : MeshInfo
  events : List Event
  expanded : SurfExpr
  written : SurfExpr

/-- The run of the script under environment `env` with arguments `a`:
the `meshes[0]` access (line 41) either aborts the run with an
IndexError - nothing in the script catches it - or the straight-line
rest of the pipeline executes. -/
def pipelineRun (env : Env) (a : Args) : Except PyError PipelineResult :=
  match indexAccess env.splitResult 0 with
  | Except.error e => Except.error e
  | Except.ok m =>
      Except.ok ⟨m, pipelineEvents a, expandedExpr a, writtenExpr a⟩

/-- Predicate for warp events. -/
def isWarp : Event → Bool
  | Event.warpByNormals _ => true
  | _ => false

/-- Predicate for decimation events. -/
def isDecimate : Event → Bool
  | Event.decimate _ _ => true
  | _ => false

/-- Predicate for the final point-structure write. -/
def isWritePdb : Event → Bool
  | Event.createPdbFromPoints _ => true
  | _ => false

/-- Sum of the per-iteration displacement magnitudes of the expansion
loop: each iteration moves every point by `warpScaleFactor` times a
unit normal, hence by distance `warpScaleFactor`. -/
def totalDisplacement (distance : ℚ) : ℚ :=
  (expansionIterations distance : ℚ) * warpScaleFactor

/-- Concrete arguments used by the witnesses: a PDB in a subdirectory,
distance 3, 400 points. -/
def argsW : Args :=
  ⟨"data/protein.pdb", 3, 400⟩

/-- Concrete environment used by the witnesses: `splitSurfaces` reports
two components, the first one smaller (volume 5 vs 100). -/
def envW : Env :=
  ⟨[⟨5⟩, ⟨100⟩]⟩

/-- The run result for `envW`, `argsW`. -/
def resW : PipelineResult :=
  ⟨⟨5⟩, pipelineEvents argsW, expandedExpr argsW, writtenExpr argsW⟩

/-- Environment in which `splitSurfaces` reports no components. -/
def envEmpty : Env :=
  ⟨[]⟩


/-- The refinement loop unrolled: five repetitions of the three-call
body, in order. -/
theorem refinementLoopEvents_eq :
    refinementLoopEvents =
      [Event.coarseDense 2 3, Event.coarseFlat (1/10) 3,
       Event.smooth 3 true false,
       Event.coarseDense 2 3, Event.coarseFlat (1/10) 3,
       Event.smooth 3 true false,
       Event.coarseDense 2 3, Event.coarseFlat (1/10) 3,
       Event.smooth 3 true false,
       Event.coarseDense 2 3, Event.coarseFlat (1/10) 3,
       Event.smooth 3 true false,
       Event.coarseDense 2 3, Event.coarseFlat (1/10) 3,
       Event.smooth 3 true false] := rfl

/-- Inversion of a successful run: the selected component is the head of
the split result and the other fields are the fixed pipeline data. -/
theorem pipelineRun_ok_inv {env : Env} {a : Args} {r : PipelineResult}
    (h : pipelineRun env a = Except.ok r) :
    env.splitResult.head? = some r.selected ∧
    r.events = pipelineEvents a ∧ r.expanded = expandedExpr a ∧
    r.written = writtenExpr a := by
  cases hs : env.splitResult with
  | nil => simp [pipelineRun, indexAccess, hs] at h
  | cons m rest =>
    simp only [pipelineRun, indexAccess, hs, List.get?] at h
    cases h
    simp

/-- A successful run exists exactly when the split result is nonempty,
and then the result record is determined. -/
theorem pipelineRun_cons {env : Env} {a : Args} {m : MeshInfo}
    {rest : List MeshInfo} (hs : env.splitResult = m :: rest) :
    pipelineRun env a =
      Except.ok ⟨m, pipelineEvents a, expandedExpr a, writtenExpr a⟩ := by
  simp [pipelineRun, indexAccess, hs]

/-- Truncation agrees with the floor on nonnegative rationals. -/
theorem pyInt_eq_floor {q : ℚ} (h : 0 ≤ q) : pyInt q = ⌊q⌋ := by
  rw [pyInt, Rat.floor_def]
  exact Int.tdiv_eq_ediv (Rat.num_nonneg.2 h) (Int.natCast_nonneg q.den)

/-- The expansion loop executes `max 0 (int(distance))` times. -/
theorem expansionIterations_eq (d : ℚ) :
    expansionIterations d = (pyInt d).toNat := by
  rw [expansionIterations, pythonRange, List.length_map, List.length_range]
  omega

/-- Membership in the expansion-loop trace. -/
theorem mem_expansionLoopEvents {d : ℚ} {e : Event}
    (h : e ∈ expansionLoopEvents d) :
    e = Event.computeNormals ∨ e = Event.warpByNormals warpScaleFactor := by
  simp only [expansionLoopEvents, List.mem_flatMap, List.mem_cons,
    List.not_mem_nil, or_false] at h
  obtain ⟨_, _, h⟩ := h
  exact h

/-- Counting in the expansion-loop trace. -/
theorem countP_expansionLoopEvents (p : Event → Bool) (d : ℚ) :
    (expansionLoopEvents d).countP p =
      expansionIterations d *
        ((p Event.computeNormals).toNat +
         (p (Event.warpByNormals warpScaleFactor)).toNat) := by
  rw [expansionLoopEvents, expansionIterations]
  generalize pythonRange 1 (pyInt d + 1) = l
  induction l with
  | nil => simp
  | cons x xs ih =>
    simp only [List.flatMap_cons, List.countP_append, ih, List.length_cons]
    cases hc : p Event.computeNormals <;>
      cases hw : p (Event.warpByNormals warpScaleFactor) <;>
        simp [List.countP_cons, hc, hw, Nat.succ_mul] <;> omega

/-- The expansion loop contributes one warp event per iteration. -/
theorem countP_isWarp_expansion (d : ℚ) :
    (expansionLoopEvents d).countP isWarp = expansionIterations d := by
  rw [countP_expansionLoopEvents]
  simp [isWarp]

/-- The expansion loop writes no file. -/
theorem countP_isWritePdb_expansion (d : ℚ) :
    (expansionLoopEvents d).countP isWritePdb = 0 := by
  rw [countP_expansionLoopEvents]
  simp [isWritePdb]

/-- The expansion loop performs no decimation. -/
theorem countP_isDecimate_expansion (d : ℚ) :
    (expansionLoopEvents d).countP isDecimate = 0 := by
  rw [countP_expansionLoopEvents]
  simp [isDecimate]

/-- A full trace holds exactly one warp event per expansion iteration. -/
theorem countP_isWarp_pipeline (a : Args) :
    (pipelineEvents a).countP isWarp = expansionIterations a.distance := by
  rw [pipelineEvents]
  simp [frontEvents, preShowEvents, refinementLoopEvents_eq,
    List.countP_append, List.countP_cons, isWarp, countP_isWarp_expansion]

/-- A full trace holds exactly one point-structure write. -/
theorem countP_isWritePdb_pipeline (a : Args) :
    (pipelineEvents a).countP isWritePdb = 1 := by
  rw [pipelineEvents]
  simp [frontEvents, preShowEvents, refinementLoopEvents_eq,
    List.countP_append, List.countP_cons, isWritePdb,
    countP_isWritePdb_expansion]

/-- A full trace holds exactly one decimation event. -/
theorem countP_isDecimate_pipeline (a : Args) :
    (pipelineEvents a).countP isDecimate = 1 := by
  rw [pipelineEvents]
  simp [frontEvents, preShowEvents, refinementLoopEvents_eq,
    List.countP_append, List.countP_cons, isDecimate,
    countP_isDecimate_expansion]

/-- Every warp event of a trace carries the fixed scale factor. -/
theorem warp_param_eq {a : Args} {q : ℚ}
    (h : Event.warpByNormals q ∈ pipelineEvents a) : q = warpScaleFactor := by
  simp only [pipelineEvents, frontEvents, preShowEvents,
    refinementLoopEvents_eq, List.mem_append, List.mem_cons,
    List.not_mem_nil, or_false, reduceCtorEq, false_or] at h
  rcases mem_expansionLoopEvents h with h | h
  · simp at h
  · simpa using h


/-- Empty Python range when the upper bound is not above the start. -/
theorem pythonRange_nil {a b : ℤ} (h : b ≤ a) : pythonRange a b = [] := by
  rw [pythonRange]
  have h0 : (b - a).toNat = 0 := by omega
  rw [h0]
  rfl

/-- With a nonpositive truncated distance the expansion loop body never
runs and the shell is returned unchanged. -/
theorem expandSurf_of_nonpos {d : ℚ} (h : pyInt d ≤ 0) (s : SurfExpr) :
    expandSurf d s = s := by
  rw [expandSurf, pythonRange_nil (by omega)]
  rfl

/-- C1, counterexample: at distance 3.5 the loop `range(1, int(3.5)+1)`
executes 3 iterations while `ceil(3.5) = 4`, so the claim's
`ceil(distance)` iteration count for non-integer distance is false. -/
theorem expansion_count_not_ceil_cex :
    expansionIterations ((7 : ℚ)/2) = 3 ∧ ⌈((7 : ℚ)/2)⌉ = 4 ∧
    ((expansionIterations ((7 : ℚ)/2) : ℤ) ≠ ⌈((7 : ℚ)/2)⌉) := by
  have h1 : expansionIterations ((7 : ℚ)/2) = 3 := by
    have h3 : ⌊(7 : ℚ)/2⌋ = 3 := by norm_num
    rw [expansionIterations_eq, pyInt_eq_floor (by norm_num), h3]
    rfl
  have h2 : ⌈((7 : ℚ)/2)⌉ = 4 := by
    rw [Int.ceil_eq_iff]
    norm_num
  refine ⟨h1, h2, ?_⟩
  rw [h1, h2]
  decide

/-- C1, amended: the expansion loop runs once per integer unit from 1 up
to and including `int(distance)`: zero times at distance 0 (the expanded
surface then equals the decimated, non-expanded shell), exactly 3 times
at distance 3.0, and `floor(distance)` - not `ceil(distance)` - times
for nonnegative distance in general, because `int()` truncates; every
run's trace holds exactly one warp event per iteration. -/
theorem expansion_iteration_count :
    expansionIterations 0 = 0 ∧
    (∀ s : SurfExpr, expandSurf 0 s = s) ∧
    expansionIterations 3 = 3 ∧
    (∀ d : ℚ, 0 ≤ d → (expansionIterations d : ℤ) = ⌊d⌋) ∧
    (∀ env a r, pipelineRun env a = Except.ok r →
      r.events.countP isWarp = expansionIterations a.distance ∧
      (a.distance = 0 →
        r.expanded = SurfExpr.extractSurface (decimatedExpr a))) := by
  refine ⟨by decide, fun s => expandSurf_of_nonpos (by decide) s, by decide,
    ?_, ?_⟩
  · intro d hd
    rw [expansionIterations_eq, pyInt_eq_floor hd,
      Int.toNat_of_nonneg (Int.floor_nonneg.2 hd)]
  · intro env a r h
    obtain ⟨-, he, hx, -⟩ := pipelineRun_ok_inv h
    refine ⟨by rw [he]; exact countP_isWarp_pipeline a, ?_⟩
    intro hd
    rw [hx, expandedExpr, hd, expandSurf_of_nonpos (by decide)]

/-- C1, witness: the floor-count law at distance 3 and the per-iteration
warp count on the concrete run. -/
theorem expansion_iteration_count_witness :
    ((0 : ℚ) ≤ 3 ∧ (expansionIterations 3 : ℤ) = ⌊(3 : ℚ)⌋) ∧
    resW.events.countP isWarp = expansionIterations argsW.distance :=
  ⟨⟨by norm_num, expansion_iteration_count.2.2.2.1 3 (by norm_num)⟩,
   (expansion_iteration_count.2.2.2.2 envW argsW resW rfl).1⟩

/-- C2: the warp scale factor is the literal 2 on every warp event of
every run, independent of the requested distance; a point displaced by
2 x unit-normal moves squared distance 4 = 2^2; summing the fixed
per-iteration displacement over the loop gives a total outward
displacement of 2 x int(distance). -/
theorem warp_fixed_scale_total :
    warpScaleFactor = 2 ∧
    (∀ env a r q, pipelineRun env a = Except.ok r →
      Event.warpByNormals q ∈ r.events → q = warpScaleFactor) ∧
    (∀ p n : Vec3, Vec3.normSq n = 1 →
      Vec3.normSq (Vec3.sub (warpPoint warpScaleFactor p n) p) = 2 ^ 2) ∧
    (∀ d : ℚ, 0 ≤ d → totalDisplacement d = 2 * (pyInt d : ℚ)) := by
  refine ⟨rfl, ?_, ?_, ?_⟩
  · intro env a r q h hm
    obtain ⟨-, he, -, -⟩ := pipelineRun_ok_inv h
    rw [he] at hm
    exact warp_param_eq hm
  · intro p n h
    simp only [Vec3.normSq, Vec3.sub, warpPoint, warpScaleFactor] at h ⊢
    linear_combination 4 * h
  · intro d hd
    have h0 : 0 ≤ pyInt d := by
      rw [pyInt_eq_floor hd]
      exact Int.floor_nonneg.2 hd
    rw [totalDisplacement, expansionIterations_eq, warpScaleFactor]
    have hq : ((pyInt d).toNat : ℚ) = (pyInt d : ℚ) := by
      exact_mod_cast Int.toNat_of_nonneg h0
    rw [hq]
    ring

/-- C2, witness: the unit-normal displacement law at a concrete point
and normal, and the total displacement at distance 3. -/
theorem warp_fixed_scale_total_witness :
    Vec3.normSq ⟨1, 0, 0⟩ = 1 ∧
    Vec3.normSq
      (Vec3.sub (warpPoint warpScaleFactor ⟨0, 0, 0⟩ ⟨1, 0, 0⟩) ⟨0, 0, 0⟩)
      = 2 ^ 2 ∧
    ((0 : ℚ) ≤ 3 ∧ totalDisplacement 3 = 2 * (pyInt 3 : ℚ)) :=
  ⟨by norm_num [Vec3.normSq],
   warp_fixed_scale_total.2.2.1 ⟨0, 0, 0⟩ ⟨1, 0, 0⟩ (by norm_num [Vec3.normSq]),
   by norm_num,
   warp_fixed_scale_total.2.2.2 3 (by norm_num)⟩

/-- C3: after the split, the program unconditionally keeps the head of
the reported component list: every successful run selects the first
component, and the run result is entirely determined by that first
component and the arguments - the remaining components, whatever their
volumes, do not influence it. -/
theorem first_component_selected :
    ∀ env a r, pipelineRun env a = Except.ok r →
      env.splitResult.head? = some r.selected ∧
      ∀ env2 r2, pipelineRun env2 a = Except.ok r2 →
        env2.splitResult.head? = env.splitResult.head? → r2 = r := by
  intro env a r h
  obtain ⟨h1, h2, h3, h4⟩ := pipelineRun_ok_inv h
  refine ⟨h1, ?_⟩
  intro env2 r2 g hg
  obtain ⟨g1, g2, g3, g4⟩ := pipelineRun_ok_inv g
  rw [hg, h1] at g1
  cases r
  cases r2
  simp_all

/-- C3, witness: in the concrete environment the first component has
volume 5 and is selected even though the discarded second component has
the larger volume 100. -/
theorem first_component_selected_witness :
    envW.splitResult.head? = some resW.selected ∧
    resW.selected.volume = 5 ∧
    (⟨100⟩ : MeshInfo) ∈ envW.splitResult ∧
    resW.selected.volume < (⟨100⟩ : MeshInfo).volume :=
  ⟨(first_component_selected envW argsW resW rfl).1, rfl,
   by decide, by decide⟩

/-- C4: the refinement stage is a fixed 5-iteration loop with no
convergence test; its trace is literally five repetitions of
coarse_dense(rate 2, 3 sub-iterations), coarse_flat(rate 0.1, 3
sub-iterations), then ridge-preserving smoothing with 3 iterations, and
this fixed block occurs in the trace of every run, between the front
section and the export/decimation section. -/
theorem refinement_fixed_schedule :
    refinementLoopEvents =
      [Event.coarseDense 2 3, Event.coarseFlat (1/10) 3,
       Event.smooth 3 true false,
       Event.coarseDense 2 3, Event.coarseFlat (1/10) 3,
       Event.smooth 3 true false,
       Event.coarseDense 2 3, Event.coarseFlat (1/10) 3,
       Event.smooth 3 true false,
       Event.coarseDense 2 3, Event.coarseFlat (1/10) 3,
       Event.smooth 3 true false,
       Event.coarseDense 2 3, Event.coarseFlat (1/10) 3,
       Event.smooth 3 true false] ∧
    (∀ env a r, pipelineRun env a = Except.ok r →
      r.events =
        [Event.readPDBGauss a.molecule, Event.computeOrientation,
         Event.correctNormals, Event.splitSurfaces, Event.selectMesh 0,
         Event.selectAllVertices, Event.smooth 5 false true]
        ++ refinementLoopEvents
        ++ ([Event.setFaceMarkers 23, Event.setRootMetadata true (-1),
             Event.writeOBJ (objFileName a.molecule),
             Event.pvRead (objFileName a.molecule),
             Event.decimate (97/100) true, Event.extractSurface]
            ++ expansionLoopEvents a.distance ++ preShowEvents a
            ++ [Event.plotterShow,
                Event.createPdbFromPoints (swarmFileName a.molecule)])) := by
  refine ⟨rfl, ?_⟩
  intro env a r h
  obtain ⟨-, he, -, -⟩ := pipelineRun_ok_inv h
  rw [he]
  simp [pipelineEvents, frontEvents, List.append_assoc]

/-- C4, witness: the trace decomposition on the concrete run. -/
theorem refinement_fixed_schedule_witness :
    resW.events =
      [Event.readPDBGauss argsW.molecule, Event.computeOrientation,
       Event.correctNormals, Event.splitSurfaces, Event.selectMesh 0,
       Event.selectAllVertices, Event.smooth 5 false true]
      ++ refinementLoopEvents
      ++ ([Event.setFaceMarkers 23, Event.setRootMetadata true (-1),
           Event.writeOBJ (objFileName argsW.molecule),
           Event.pvRead (objFileName argsW.molecule),
           Event.decimate (97/100) true, Event.extractSurface]
          ++ expansionLoopEvents argsW.distance ++ preShowEvents argsW
          ++ [Event.plotterShow,
              Event.createPdbFromPoints (swarmFileName argsW.molecule)]) :=
  refinement_fixed_schedule.2 envW argsW resW rfl

/-- C5: the re-imported mesh is decimated exactly once, with the fixed
target reduction 0.97 and volume preservation enabled, for every
argument vector - no command-line argument reaches the decimation
parameters. -/
theorem decimation_fixed :
    ∀ env a r, pipelineRun env a = Except.ok r →
      Event.decimate (97/100) true ∈ r.events ∧
      r.events.countP isDecimate = 1 := by
  intro env a r h
  obtain ⟨-, he, -, -⟩ := pipelineRun_ok_inv h
  rw [he]
  exact ⟨by simp [pipelineEvents, frontEvents], countP_isDecimate_pipeline a⟩

/-- C5, witness: the decimation event of the concrete run. -/
theorem decimation_fixed_witness :
    Event.decimate (97/100) true ∈ resW.events ∧
    resW.events.countP isDecimate = 1 :=
  decimation_fixed envW argsW resW rfl

/-- C6: the resampling stage subdivides the expanded surface exactly 3
times, clusters it into `args.points` regions, and the written point set
is taken from the mesh created from those clusters: symbolically, the
written surface is the extracted surface of `create_mesh` applied after
`subdivide(3)` and `cluster(points)` on the expanded mesh, and the trace
ends with exactly that call sequence. -/
theorem resampling_stage :
    ∀ env a r, pipelineRun env a = Except.ok r →
      r.written = SurfExpr.extractSurface
        (SurfExpr.clusteringMesh r.expanded 3 a.points) ∧
      r.events =
        (frontEvents a ++ expansionLoopEvents a.distance
          ++ [Event.extractSurface])
        ++ [Event.subdivide 3, Event.cluster a.points, Event.createMesh]
        ++ [Event.extractSurface, Event.addMesh, Event.addPoints,
            Event.addMesh, Event.linkViews, Event.showBounds,
            Event.plotterShow,
            Event.createPdbFromPoints (swarmFileName a.molecule)] := by
  intro env a r h
  obtain ⟨-, he, hx, hw⟩ := pipelineRun_ok_inv h
  refine ⟨?_, ?_⟩
  · rw [hw, hx]
    rfl
  · rw [he]
    simp [pipelineEvents, preShowEvents, List.append_assoc]

/-- C6, witness: the written-surface equation on the concrete run. -/
theorem resampling_stage_witness :
    resW.written = SurfExpr.extractSurface
      (SurfExpr.clusteringMesh resW.expanded 3 argsW.points) :=
  (resampling_stage envW argsW resW rfl).1

/-- C7: for every input path the single point-structure write of a run
targets `stem + "_swarms" + ".pdb"` where `stem` is the input file's
stem (the `.pdb` structure-file extension is fixed in the script). -/
theorem output_file_name :
    ∀ env a r, pipelineRun env a = Except.ok r →
      Event.createPdbFromPoints (swarmFileName a.molecule) ∈ r.events ∧
      r.events.countP isWritePdb = 1 ∧
      swarmFileName a.molecule = pathStem a.molecule ++ "_swarms.pdb" := by
  intro env a r h
  obtain ⟨-, he, -, -⟩ := pipelineRun_ok_inv h
  rw [he]
  exact ⟨by simp [pipelineEvents], countP_isWritePdb_pipeline a, rfl⟩

/-- C7, witness: on the concrete input `data/protein.pdb` the write
event exists and the computed name is `protein_swarms.pdb`. -/
theorem output_file_name_witness :
    Event.createPdbFromPoints (swarmFileName argsW.molecule) ∈ resW.events ∧
    swarmFileName argsW.molecule = "protein_swarms.pdb" :=
  ⟨(output_file_name envW argsW resW rfl).1, by decide⟩

/-- C8: the interactive `show()` call precedes, in program order, the
sole write of the final point-structure file: the trace of every run is
a prefix containing no point-structure write, followed by the show event
and then the single write event. -/
theorem show_precedes_write :
    ∀ env a r, pipelineRun env a = Except.ok r →
      r.events =
        (frontEvents a ++ expansionLoopEvents a.distance ++ preShowEvents a)
        ++ [Event.plotterShow,
            Event.createPdbFromPoints (swarmFileName a.molecule)] ∧
      (frontEvents a ++ expansionLoopEvents a.distance
        ++ preShowEvents a).countP isWritePdb = 0 ∧
      r.events.countP isWritePdb = 1 := by
  intro env a r h
  obtain ⟨-, he, -, -⟩ := pipelineRun_ok_inv h
  rw [he]
  refine ⟨by simp [pipelineEvents, List.append_assoc], ?_,
    countP_isWritePdb_pipeline a⟩
  simp [frontEvents, preShowEvents, refinementLoopEvents_eq,
    List.countP_append, List.countP_cons, isWritePdb,
    countP_isWritePdb_expansion]

/-- C8, witness: the trace decomposition and write counts on the
concrete run. -/
theorem show_precedes_write_witness :
    resW.events =
      (frontEvents argsW ++ expansionLoopEvents argsW.distance
        ++ preShowEvents argsW)
      ++ [Event.plotterShow,
          Event.createPdbFromPoints (swarmFileName argsW.molecule)] ∧
    (frontEvents argsW ++ expansionLoopEvents argsW.distance
      ++ preShowEvents argsW).countP isWritePdb = 0 ∧
    resW.events.countP isWritePdb = 1 :=
  show_precedes_write envW argsW resW rfl

/-- C9: when `splitSurfaces` reports no components, the `meshes[0]`
access aborts the whole run with an IndexError; the script has no
try/except, so the error is the final result of the run, not a
structured recovery. -/
theorem empty_split_aborts :
    ∀ env a, env.splitResult = [] →
      pipelineRun env a = Except.error PyError.indexError := by
  intro env a h
  simp [pipelineRun, indexAccess, h]

/-- C9, witness: the abort on the concrete empty environment. -/
theorem empty_split_aborts_witness :
    pipelineRun envEmpty argsW = Except.error PyError.indexError :=
  empty_split_aborts envEmpty argsW rfl

/-- C10: before the 5-round refinement loop, every run selects all
vertices of the chosen component and applies one smoothing pass of 5
iterations with ridge preservation disabled: in the trace these two
events sit immediately between the component selection and the
refinement block. -/
theorem pre_refinement_preparation :
    ∀ env a r, pipelineRun env a = Except.ok r →
      r.events =
        [Event.readPDBGauss a.molecule, Event.computeOrientation,
         Event.correctNormals, Event.splitSurfaces, Event.selectMesh 0]
        ++ [Event.selectAllVertices, Event.smooth 5 false true]
        ++ refinementLoopEvents
        ++ ([Event.setFaceMarkers 23, Event.setRootMetadata true (-1),
             Event.writeOBJ (objFileName a.molecule),
             Event.pvRead (objFileName a.molecule),
             Event.decimate (97/100) true, Event.extractSurface]
            ++ expansionLoopEvents a.distance ++ preShowEvents a
            ++ [Event.plotterShow,
                Event.createPdbFromPoints (swarmFileName a.molecule)]) := by
  intro env a r h
  obtain ⟨-, he, -, -⟩ := pipelineRun_ok_inv h
  rw [he]
  simp [pipelineEvents, frontEvents, List.append_assoc]

/-- C10, witness: the decomposition on the concrete run. -/
theorem pre_refinement_preparation_witness :
    resW.events =
      [Event.readPDBGauss argsW.molecule, Event.computeOrientation,
       Event.correctNormals, Event.splitSurfaces, Event.selectMesh 0]
      ++ [Event.selectAllVertices, Event.smooth 5 false true]
      ++ refinementLoopEvents
      ++ ([Event.setFaceMarkers 23, Event.setRootMetadata true (-1),
           Event.writeOBJ (objFileName argsW.molecule),
           Event.pvRead (objFileName argsW.molecule),
           Event.decimate (97/100) true, Event.extractSurface]
          ++ expansionLoopEvents argsW.distance ++ preShowEvents argsW
          ++ [Event.plotterShow,
              Event.createPdbFromPoints (swarmFileName argsW.molecule)]) :=
  pre_refinement_preparation envW argsW resW rfl

end SurfaceSampler
